import Mathlib

/-!
Verification of the log-validation and scoring core of the
ai-execution-coach repository (src/core/score_calculator.py,
src/core/log_validator.py, src/core/report_generator.py).

Modelling conventions:
* Parsed JSON values are the inductive `Json`; Python dicts are association
  lists with first-match lookup (keys are unique in every input considered).
* Python numbers (int/float) are modelled as exact rationals `ℚ`; binary
  floating-point rounding noise is not modelled.  `round(x, n)` is modelled
  as exact round-half-to-even at `n` decimal digits, which agrees with
  Python's behaviour on every value appearing in the claims.
* Raised exceptions are modelled with `Except ScoreErr`.  `keyError` and
  `valueError` carry the exact message strings raised in the source;
  `attributeError` and `typeError` are raised by the Python runtime itself
  (e.g. calling `.get` on a non-dict, adding a string to a number) and are
  modelled without their runtime-generated messages.
* The file-handling steps of `validate_daily_log` (existence check, JSON
  parsing) are I/O and are outside the embedding; `validate_daily_log_data`
  embeds the content validation (steps 4-10 of the source) applied to the
  parsed value.
-/

/-- A parsed JSON value (the result of Python `json.load`). -/
inductive Json where
  | null : Json
  | bool (b : Bool) : Json
  | num (q : ℚ) : Json
  | str (s : String) : Json
  | arr (xs : List Json) : Json
  | obj (kvs : List (String × Json)) : Json
deriving Repr

/-- Python dicts are modelled as association lists. -/
abbrev Dict := List (String × Json)

/-- Key lookup in a dict (first match; keys are unique in Python dicts). -/
def lookupKey (d : Dict) (k : String) : Option Json :=
  List.lookup k d

/-- Python `k in d` membership test on a dict. -/
def hasKey (d : Dict) (k : String) : Bool :=
  (lookupKey d k).isSome

/-- Python `d.get(k)` (default `None`). -/
def pyGet (d : Dict) (k : String) : Json :=
  (lookupKey d k).getD Json.null

/-- Python `d.get(k, default)`. -/
def pyGetD (d : Dict) (k : String) (default : Json) : Json :=
  (lookupKey d k).getD default

/-- Python truthiness of a JSON value. -/
def pyTruthy : Json → Bool
  | .null => false
  | .bool b => b
  | .num q => q != 0
  | .str s => s != ""
  | .arr xs => !xs.isEmpty
  | .obj kvs => !kvs.isEmpty

/-- Python `a or b` on JSON values: `a` when truthy, otherwise `b`. -/
def pyOrJ (a b : Json) : Json :=
  if pyTruthy a then a else b

/-- Python `isinstance(v, str)`. -/
def isStrJ : Json → Bool
  | .str _ => true
  | _ => false

/-- Python `isinstance(v, list)`. -/
def isListJ : Json → Bool
  | .arr _ => true
  | _ => false

/-- Whether a JSON value is an object (a Python dict). -/
def isObjJ : Json → Bool
  | .obj _ => true
  | _ => false

/-- Python `isinstance(v, (int, float))`.  `bool` is a subclass of `int` in
Python, so boolean values pass this test. -/
def isNumberPy : Json → Bool
  | .num _ => true
  | .bool _ => true
  | _ => false

/-- Numeric value of a JSON number for comparisons; Python booleans compare
as 1 and 0.  Only applied after `isNumberPy` succeeds. -/
def asRat : Json → ℚ
  | .num q => q
  | .bool b => if b then 1 else 0
  | _ => 0

/-- Python `type(v).__name__` for a JSON value (used only inside one error
message); the int/float distinction is not tracked, numbers render "int". -/
def pyTypeName : Json → String
  | .null => "NoneType"
  | .bool _ => "bool"
  | .num _ => "int"
  | .str _ => "str"
  | .arr _ => "list"
  | .obj _ => "dict"

/-- The string payload of a JSON string; only applied after `isStrJ`. -/
def asStr : Json → String
  | .str s => s
  | _ => ""

/- Python `str()` of a JSON value, as applied at score_calculator.py:64 and
report_generator.py:44.  Strings are the identity; `None`, booleans render as
in Python.  Numbers render as the decimal form of the rational and container
rendering approximates Python's (element quoting is not reproduced); no claim
depends on those renderings, and none of them ever lower/strip to the token
"none". -/
mutual

/-- Python str() of a JSON value; see the comment above. -/
def pyStr : Json → String
  | .null => "None"
  | .bool b => if b then "True" else "False"
  | .num q => toString q
  | .str s => s
  | .arr xs => "[" ++ pyStrList xs ++ "]"
  | .obj kvs => "\x7b" ++ pyStrObj kvs ++ "\x7d"

/-- Comma-separated rendering of the elements of a JSON array. -/
def pyStrList : List Json → String
  | [] => ""
  | [a] => pyStr a
  | a :: rest => pyStr a ++ ", " ++ pyStrList rest

/-- Comma-separated rendering of the entries of a JSON object. -/
def pyStrObj : List (String × Json) → String
  | [] => ""
  | [(k, v)] => "\x27" ++ k ++ "\x27: " ++ pyStr v
  | (k, v) :: rest => "\x27" ++ k ++ "\x27: " ++ pyStr v ++ ", " ++ pyStrObj rest

end

/-- Python `.lower()` (ASCII case mapping; every input considered is ASCII). -/
def pyLower (s : String) : String :=
  String.mk (s.data.map Char.toLower)

/-- Whitespace test used by Python `.strip()` (space, tab, CR, LF; every
input considered uses only these). -/
def isPyWhitespace (c : Char) : Bool :=
  c.isWhitespace

/-- Python `.strip()`: remove whitespace from both ends. -/
def pyStrip (s : String) : String :=
  String.mk (((s.data.dropWhile isPyWhitespace).reverse.dropWhile isPyWhitespace).reverse)

/-- Exception taxonomy of the scoring core. -/
inductive ScoreErr where
  | keyError (msg : String) : ScoreErr
  | valueError (msg : String) : ScoreErr
  | attributeError : ScoreErr
  | typeError : ScoreErr
deriving DecidableEq, Repr

/-- Round-half-to-even of a rational to an integer (Python `round`). -/
def roundHalfEven (q : ℚ) : ℤ :=
  let f := q.floor
  let r := q - f
  if r < 1/2 then f
  else if 1/2 < r then f + 1
  else if f % 2 = 0 then f else f + 1

/-- Python `round(q, 2)`. -/
def round2 (q : ℚ) : ℚ :=
  (roundHalfEven (q * 100) : ℚ) / 100

/-- Python `round(q, 1)`. -/
def round1 (q : ℚ) : ℚ :=
  (roundHalfEven (q * 10) : ℚ) / 10

/-- The tangible-output test applied to one activity dict,
score_calculator.py:59-65: the raw `output_produced` value (default the
string "none") must be truthy and its `str()` form, lower-cased then
stripped, must differ from "none". -/
def hasTangibleOutput (activity : Dict) : Bool :=
  let output := pyGetD activity "output_produced" (Json.str "none")
  pyTruthy output && (pyStrip (pyLower (pyStr output)) != "none")

/-- Loop body of score_calculator.py:59-65 over the activities list; calling
`.get` on a non-dict element raises `AttributeError`. -/
def countTangible : List Json → Except ScoreErr Nat
  | [] => .ok 0
  | a :: rest =>
    match a with
    | .obj activity =>
        (countTangible rest).map fun k => (if hasTangibleOutput activity then 1 else 0) + k
    | _ => .error .attributeError

/-- score_calculator.py `calculate_daily_score`. -/
def calculate_daily_score (daily_log_dict : Dict) : Except ScoreErr ℚ :=
  match lookupKey daily_log_dict "activities" with
  | none => .error (.keyError "El diccionario debe contener la clave \x27activities\x27")
  | some activities_raw =>
    match activities_raw with
    | .arr activities =>
        if activities.length = 0 then .ok 0
        else
          (countTangible activities).map fun (activities_with_output : ℕ) =>
            round2 ((activities_with_output : ℚ) / (activities.length : ℚ) * 100)
    | _ => .error (.valueError "\x27activities\x27 debe ser una lista")

/-- Whether a daily-scoring exception is caught by the `except (KeyError,
ValueError)` clause at score_calculator.py:103. -/
def caughtErr : ScoreErr → Bool
  | .keyError _ => true
  | .valueError _ => true
  | _ => false

/-- Loop of score_calculator.py:99-106: per-log daily scores, skipping logs
that raise `KeyError` or `ValueError`; any other exception propagates. -/
def collectDailyScores : List Dict → Except ScoreErr (List ℚ)
  | [] => .ok []
  | log :: rest =>
    match calculate_daily_score log with
    | .ok s => (collectDailyScores rest).map fun t => s :: t
    | .error e => if caughtErr e then collectDailyScores rest else .error e

/-- score_calculator.py `calculate_weekly_score`. -/
def calculate_weekly_score (list_of_daily_logs : List Dict) : Except ScoreErr ℚ :=
  if list_of_daily_logs.isEmpty then
    .error (.valueError "La lista de logs diarios no puede estar vacía")
  else
    match collectDailyScores list_of_daily_logs with
    | .error e => .error e
    | .ok daily_scores =>
      if daily_scores.isEmpty then
        .error (.valueError "No se pudo calcular ningún score diario válido")
      else
        .ok (round2 (daily_scores.sum / (daily_scores.length : ℚ)))

/-- score_calculator.py `classify_score`. -/
def classify_score (score : ℚ) : String :=
  if score > 80 then "EXCELENTE"
  else if score >= 60 then "ACEPTABLE"
  else "FRACASO"

/-! ### log_validator.py -/

/-- log_validator.py:21. -/
def VALID_ACTIVITY_TYPES : List String := ["production", "consumption", "both"]

/-- log_validator.py:22. -/
def MIN_HONESTY_SCORE : ℚ := 0

/-- log_validator.py:23. -/
def MAX_HONESTY_SCORE : ℚ := 10

/-- Step 5 of `validate_daily_log` (log_validator.py:87-95): required
top-level keys, with the loop over `['date', 'activities']` unrolled. -/
def checkRoot (data : Dict) : Option String :=
  if !hasKey data "date" then
    some "Campo requerido faltante en la raíz: \x27date\x27"
  else if !hasKey data "activities" then
    some "Campo requerido faltante en la raíz: \x27activities\x27"
  else if !hasKey data "self_assessment" && !hasKey data "self_assesment" then
    some "Campo requerido faltante en la raíz: \x27self_assessment\x27 o \x27self_assesment\x27"
  else none

/-- Step 6 of `validate_daily_log` (log_validator.py:97-102): the `date`
field must be a string of exactly 10 characters containing exactly two
`-` characters; nothing else about the date is checked. -/
def checkDateField (data : Dict) : Option String :=
  let v := pyGet data "date"
  if !isStrJ v then
    some "El campo \x27date\x27 debe ser un string (formato: YYYY-MM-DD)"
  else if (asStr v).length ≠ 10 ∨ (asStr v).data.count '-' ≠ 2 then
    some ("El campo \x27date\x27 debe tener formato YYYY-MM-DD, recibido: \x27" ++ asStr v ++ "\x27")
  else none

/-- One iteration of step 8 of `validate_daily_log`
(log_validator.py:113-156), for the activity with 1-based index `idx`.
The four presence checks run first, then the value checks; the redundant
`if has_time:` guard around the duration value checks (always true at that
point) is dropped. -/
def checkActivity (idx : Nat) (activity_raw : Json) : Option String :=
  match activity_raw with
  | .obj activity =>
    let has_description := hasKey activity "name" || hasKey activity "description"
    let has_time := hasKey activity "duration_minutes" || hasKey activity "time_invested_minutes"
    let has_output := hasKey activity "output_produced"
    let has_type := hasKey activity "type"
    if !has_description then
      some ("Actividad #" ++ toString idx ++ ": debe tener \x27name\x27 o \x27description\x27")
    else if !has_time then
      some ("Actividad #" ++ toString idx ++
        ": debe tener \x27duration_minutes\x27 o \x27time_invested_minutes\x27")
    else if !has_output then
      some ("Actividad #" ++ toString idx ++ ": campo requerido faltante \x27output_produced\x27")
    else if !has_type then
      some ("Actividad #" ++ toString idx ++ ": campo requerido faltante \x27type\x27")
    else
      let time_field :=
        if hasKey activity "duration_minutes" then "duration_minutes"
        else "time_invested_minutes"
      let time_value := pyGet activity time_field
      if !isNumberPy time_value then
        some ("Actividad #" ++ toString idx ++ ": \x27" ++ time_field ++ "\x27 debe ser un número")
      else if asRat time_value ≤ 0 then
        some ("Actividad #" ++ toString idx ++ ": \x27" ++ time_field ++ "\x27 debe ser mayor a 0")
      else if !isStrJ (pyGet activity "output_produced") then
        some ("Actividad #" ++ toString idx ++ ": \x27output_produced\x27 debe ser string")
      else if !isStrJ (pyGet activity "type") then
        some ("Actividad #" ++ toString idx ++ ": \x27type\x27 debe ser string")
      else if !(VALID_ACTIVITY_TYPES ++ ["learning"]).contains (asStr (pyGet activity "type")) then
        some ("Actividad #" ++ toString idx ++
          ": \x27type\x27 debe ser uno de [\x27production\x27, \x27consumption\x27, \x27both\x27, \x27learning\x27], recibido: \x27"
          ++ asStr (pyGet activity "type") ++ "\x27")
      else none
  | _ => some ("Actividad #" ++ toString idx ++ " debe ser un objeto/diccionario")

/-- The `enumerate(..., start=1)` loop of step 8: first failing activity
check wins. -/
def checkActivities : Nat → List Json → Option String
  | _, [] => none
  | idx, a :: rest =>
    match checkActivity idx a with
    | some e => some e
    | none => checkActivities (idx + 1) rest

/-- Step 9 of `validate_daily_log` (log_validator.py:158-192).  All three
alias resolutions use Python `or` on `.get` results, so a falsy value under
the first alias falls through to the second. -/
def checkAssessment (data : Dict) : Option String :=
  let assessment_raw := pyOrJ (pyGet data "self_assessment") (pyGet data "self_assesment")
  match assessment_raw with
  | .obj assessment =>
    let honesty := pyGet assessment "honesty_score"
    if honesty matches .null then
      some "self_assessment: campo requerido faltante \x27honesty_score\x27"
    else if !isNumberPy honesty then
      some ("self_assessment: \x27honesty_score\x27 debe ser un número, recibido: "
        ++ pyTypeName honesty)
    else if ¬ (MIN_HONESTY_SCORE ≤ asRat honesty ∧ asRat honesty ≤ MAX_HONESTY_SCORE) then
      some ("self_assessment: \x27honesty_score\x27 debe estar entre 0 y 10, recibido: "
        ++ pyStr honesty)
    else
      let main_obstacle := pyOrJ (pyGet assessment "main_obstacle") (pyGet assessment "main_blocker")
      if main_obstacle matches .null then
        some "self_assessment: campo requerido faltante \x27main_obstacle\x27 o \x27main_blocker\x27"
      else if !isStrJ main_obstacle then
        some "self_assessment: \x27main_obstacle\x27 debe ser string"
      else
        let commitment := pyOrJ (pyGet assessment "commitment_tomorrow")
          (pyGet assessment "tomorrow_commitment")
        if commitment matches .null then
          some "self_assessment: campo requerido faltante \x27commitment_tomorrow\x27 o \x27tomorrow_commitment\x27"
        else if !isStrJ commitment then
          some "self_assessment: \x27commitment_tomorrow\x27 debe ser string"
        else none
  | _ => some "El campo \x27self_assessment\x27 debe ser un objeto/diccionario"

/-- The content-validation part of log_validator.py `validate_daily_log`
(steps 4-10), applied to the parsed JSON value; the preceding file-system
and JSON-parsing steps are I/O and outside the embedding. -/
def validate_daily_log_data (data : Json) : Bool × Option String :=
  match data with
  | .obj d =>
    match checkRoot d with
    | some e => (false, some e)
    | none =>
      match checkDateField d with
      | some e => (false, some e)
      | none =>
        match pyGet d "activities" with
        | .arr xs =>
          if xs.isEmpty then
            (false, some "El campo \x27activities\x27 no puede estar vacío (debe haber al menos 1 actividad)")
          else
            match checkActivities 1 xs with
            | some e => (false, some e)
            | none =>
              match checkAssessment d with
              | some e => (false, some e)
              | none => (true, none)
        | _ => (false, some "El campo \x27activities\x27 debe ser una lista/array")
  | _ => (false, some "El JSON debe ser un objeto (diccionario), no una lista o valor primitivo")

/-! ### report_generator.py -/

/-- Result record of `calculate_weekly_metrics` (report_generator.py:72-83). -/
structure WeeklyMetrics where
  total_activities : Nat
  activities_with_output : Nat
  total_time_minutes : ℚ
  total_time_hours : ℚ
  production_time : ℚ
  consumption_time : ℚ
  production_percentage : ℚ
  consumption_percentage : ℚ
  weekly_score : ℚ
  daily_scores : List ℚ
deriving Repr

/-- Mutable accumulators of the loop of `calculate_weekly_metrics`
(report_generator.py:24-29). -/
structure MetricsAcc where
  total_activities : Nat
  activities_with_output : Nat
  total_time_minutes : ℚ
  production_time : ℚ
  consumption_time : ℚ
  daily_scores : List ℚ

/-- Python `len()` of a JSON value; raises `TypeError` on values without a
length. -/
def pyLen : Json → Except ScoreErr Nat
  | .str s => .ok s.length
  | .arr xs => .ok xs.length
  | .obj kvs => .ok kvs.length
  | _ => .error .typeError

/-- Python `acc + v` where `acc` is a number: numbers and booleans add
(`True` counts as 1), anything else raises `TypeError`. -/
def pyAdd (acc : ℚ) : Json → Except ScoreErr ℚ
  | .num q => .ok (acc + q)
  | .bool b => .ok (acc + if b then 1 else 0)
  | _ => .error .typeError

/-- Python `v.lower()`: raises `AttributeError` on non-strings. -/
def pyLowerJ : Json → Except ScoreErr String
  | .str s => .ok (pyLower s)
  | _ => .error .attributeError

/-- The alias-resolved duration of one activity, report_generator.py:48:
`activity.get(\x27time_invested_minutes\x27) or activity.get(\x27duration_minutes\x27, 0)`. -/
def timeInvested (activity : Dict) : Json :=
  pyOrJ (pyGet activity "time_invested_minutes") (pyGetD activity "duration_minutes" (Json.num 0))

/-- Body of the inner activity loop of `calculate_weekly_metrics`
(report_generator.py:41-63). -/
def metricsActivity (acc : MetricsAcc) (activity_raw : Json) : Except ScoreErr MetricsAcc :=
  match activity_raw with
  | .obj activity => do
    let output := pyGetD activity "output_produced" (Json.str "none")
    let withOutput := pyTruthy output && (pyStrip (pyLower (pyStr output)) != "none")
    let acc := { acc with activities_with_output :=
                   acc.activities_with_output + (if withOutput then 1 else 0) }
    let time_invested := timeInvested activity
    let total ← pyAdd acc.total_time_minutes time_invested
    let acc := { acc with total_time_minutes := total }
    let activity_type ← pyLowerJ (pyGetD activity "type" (Json.str "both"))
    if activity_type = "production" then do
      let p ← pyAdd acc.production_time time_invested
      .ok { acc with production_time := p }
    else if activity_type = "consumption" then do
      let c ← pyAdd acc.consumption_time time_invested
      .ok { acc with consumption_time := c }
    else if withOutput then do
      let p ← pyAdd acc.production_time time_invested
      .ok { acc with production_time := p }
    else do
      let c ← pyAdd acc.consumption_time time_invested
      .ok { acc with consumption_time := c }
  | _ => .error .attributeError

/-- Body of the outer log loop of `calculate_weekly_metrics`
(report_generator.py:31-63): logs without an `activities` key are skipped;
otherwise the activity count, the daily score and the per-activity sums are
accumulated.  The fallback branch is unreachable: when `activities` is not
a list, `calculate_daily_score` has already raised the same `ValueError`. -/
def metricsLog (acc : MetricsAcc) (log : Dict) : Except ScoreErr MetricsAcc :=
  match lookupKey log "activities" with
  | none => .ok acc
  | some activities_raw => do
    let n ← pyLen activities_raw
    let day_score ← calculate_daily_score log
    match activities_raw with
    | .arr activities =>
        activities.foldlM metricsActivity
          { acc with total_activities := acc.total_activities + n,
                     daily_scores := acc.daily_scores ++ [day_score] }
    | _ => .error (.valueError "\x27activities\x27 debe ser una lista")

/-- report_generator.py `calculate_weekly_metrics`. -/
def calculate_weekly_metrics (daily_logs : List Dict) : Except ScoreErr WeeklyMetrics := do
  let acc ← daily_logs.foldlM metricsLog ⟨0, 0, 0, 0, 0, []⟩
  let production_percentage :=
    if acc.total_time_minutes > 0 then acc.production_time / acc.total_time_minutes * 100 else 0
  let consumption_percentage :=
    if acc.total_time_minutes > 0 then acc.consumption_time / acc.total_time_minutes * 100 else 0
  let weekly_score :=
    if acc.daily_scores.isEmpty then 0
    else acc.daily_scores.sum / (acc.daily_scores.length : ℚ)
  .ok { total_activities := acc.total_activities,
        activities_with_output := acc.activities_with_output,
        total_time_minutes := acc.total_time_minutes,
        total_time_hours := round2 (acc.total_time_minutes / 60),
        production_time := acc.production_time,
        consumption_time := acc.consumption_time,
        production_percentage := round1 production_percentage,
        consumption_percentage := round1 consumption_percentage,
        weekly_score := round2 weekly_score,
        daily_scores := acc.daily_scores }

/-! ### Definitions supporting the individual claims -/

/-- The tangible-output test lifted to a JSON value: objects are tested
with `hasTangibleOutput`, non-objects make the scoring loop raise and are
never counted. -/
def jsonTangible : Json → Bool
  | .obj m => hasTangibleOutput m
  | _ => false

/-- Comparison definition, from the words of claim C2 (not from the
source): an activity counts when its `output_produced` value, after
lower-casing and trimming, is neither exactly "none" nor empty.  The source
instead tests truthiness of the raw value before trimming. -/
def claimedTangible (activity : Dict) : Bool :=
  let t := pyStrip (pyLower (pyStr (pyGetD activity "output_produced" (Json.str "none"))))
  t != "none" && t != ""

/-- `claimedTangible` lifted to JSON values. -/
def claimedTangibleJson : Json → Bool
  | .obj m => claimedTangible m
  | _ => false

/-- Comparison definition, from the words of claim C2 (not from the
source): the daily score as the claim states its formula. -/
def claimedDailyScore (d : Dict) : Except ScoreErr ℚ :=
  match lookupKey d "activities" with
  | some (Json.arr xs) =>
      if xs.length = 0 then .ok 0
      else .ok (round2 (100 * (xs.countP claimedTangibleJson : ℚ) / (xs.length : ℚ)))
  | _ => .error .typeError

/-- A record whose single activity has a whitespace-only output: raw value
truthy, but empty after trimming. -/
def exC2 : Dict := [("activities", Json.arr [Json.obj [("output_produced", Json.str " ")]])]

/-- Activity list of `exC2w`: one tangible output and one "none". -/
def exC2wActs : List Json :=
  [Json.obj [("output_produced", Json.str "module.py")],
   Json.obj [("output_produced", Json.str "none")]]

/-- A two-activity record, one tangible output and one "none". -/
def exC2w : Dict := [("activities", Json.arr exC2wActs)]

/-- Whether a daily-score result is an ok value or a caught exception
(`KeyError`/`ValueError`); uncaught results abort the weekly loop. -/
def caughtOrOk (r : Except ScoreErr ℚ) : Bool :=
  match r with
  | .ok _ => true
  | .error e => caughtErr e

/-- One log whose daily score is 0.0 plus one log whose activities list
holds a non-dict, making `calculate_daily_score` raise `AttributeError`
(`42 .get(...)`), which `except (KeyError, ValueError)` does not catch. -/
def exC4 : List Dict :=
  [[("activities", Json.arr [])],
   [("activities", Json.arr [Json.num 42])]]

/-- A single log scoring 0.0, for the C4 witness. -/
def exC4w : List Dict := [[("activities", Json.arr [])]]

/-! ### Helper lemmas -/

/-- On a list of objects, the scoring loop succeeds and counts exactly the
activities passing the tangible-output test. -/
theorem countTangible_of_obj (xs : List Json) (h : ∀ a ∈ xs, isObjJ a = true) :
    countTangible xs = Except.ok (xs.countP jsonTangible) := by
  induction xs with
  | nil => rfl
  | cons a rest ih =>
    have ha : isObjJ a = true := h a (List.mem_cons_self a rest)
    have hrest : ∀ b ∈ rest, isObjJ b = true := fun b hb => h b (List.mem_cons_of_mem a hb)
    cases a with
    | obj m =>
      simp only [countTangible, ih hrest, Except.map, List.countP_cons, jsonTangible]
      exact congrArg Except.ok (Nat.add_comm _ _)
    | null => simp [isObjJ] at ha
    | bool b => simp [isObjJ] at ha
    | num q => simp [isObjJ] at ha
    | str s => simp [isObjJ] at ha
    | arr l => simp [isObjJ] at ha

/-- The scoring loop either succeeds or raises `AttributeError`. -/
theorem countTangible_cases (xs : List Json) :
    (∃ k, countTangible xs = Except.ok k) ∨
      countTangible xs = Except.error ScoreErr.attributeError := by
  induction xs with
  | nil => exact Or.inl ⟨0, rfl⟩
  | cons a rest ih =>
    cases a with
    | obj m =>
      rcases ih with ⟨k, hk⟩ | h
      · exact Or.inl ⟨(if hasTangibleOutput m then 1 else 0) + k,
          by simp [countTangible, hk, Except.map]⟩
      · exact Or.inr (by simp [countTangible, h, Except.map])
    | null => exact Or.inr rfl
    | bool b => exact Or.inr rfl
    | num q => exact Or.inr rfl
    | str s => exact Or.inr rfl
    | arr l => exact Or.inr rfl

/-! ### Claims -/

/-- Claim C1: `classify_score` is a pure total function with exactly three
tiers: score > 80 yields EXCELENTE (spec: EXCELLENT), 60 ≤ score ≤ 80
yields ACEPTABLE (ACCEPTABLE), score < 60 yields FRACASO (FAILURE); in
particular 80.0 and 60.0 classify as ACEPTABLE, 80.01 as EXCELENTE and
59.99 as FRACASO. -/
theorem C1_classify_score_tiers :
    (∀ s : ℚ, 80 < s → classify_score s = "EXCELENTE") ∧
    (∀ s : ℚ, 60 ≤ s → s ≤ 80 → classify_score s = "ACEPTABLE") ∧
    (∀ s : ℚ, s < 60 → classify_score s = "FRACASO") ∧
    classify_score 80 = "ACEPTABLE" ∧ classify_score 80.01 = "EXCELENTE" ∧
    classify_score 60 = "ACEPTABLE" ∧ classify_score 59.99 = "FRACASO" := by
  refine ⟨?_, ?_, ?_, ?_, ?_, ?_, ?_⟩
  · intro s h
    unfold classify_score
    rw [if_pos h]
  · intro s h1 h2
    unfold classify_score
    rw [if_neg (not_lt.mpr h2), if_pos h1]
  · intro s h
    unfold classify_score
    rw [if_neg (not_lt.mpr (le_of_lt (h.trans (by norm_num)))), if_neg (not_le.mpr h)]
  · with_unfolding_all rfl
  · with_unfolding_all rfl
  · with_unfolding_all rfl
  · with_unfolding_all rfl

/-- Witness for C1 at the concrete scores 90, 70 and 45. -/
theorem C1_classify_score_tiers_witness :
    ((80:ℚ) < 90 ∧ classify_score 90 = "EXCELENTE") ∧
    ((60:ℚ) ≤ 70 ∧ (70:ℚ) ≤ 80 ∧ classify_score 70 = "ACEPTABLE") ∧
    ((45:ℚ) < 60 ∧ classify_score 45 = "FRACASO") :=
  ⟨⟨by with_unfolding_all decide,
    C1_classify_score_tiers.1 90 (by with_unfolding_all decide)⟩,
   ⟨by with_unfolding_all decide, by with_unfolding_all decide,
    C1_classify_score_tiers.2.1 70 (by with_unfolding_all decide) (by with_unfolding_all decide)⟩,
   ⟨by with_unfolding_all decide,
    C1_classify_score_tiers.2.2.1 45 (by with_unfolding_all decide)⟩⟩

/-- Counterexample to claim C2 as stated: an activity whose output is the
single space " " is empty after trimming, so the claim's formula scores the
record 0, but the source tests truthiness of the raw (untrimmed) value and
scores it 100. -/
theorem C2_daily_score_counterexample :
    calculate_daily_score exC2 = Except.ok 100 ∧
    claimedDailyScore exC2 = Except.ok 0 ∧
    (100 : ℚ) ≠ 0 := by
  refine ⟨by with_unfolding_all rfl, by with_unfolding_all rfl, by with_unfolding_all decide⟩

/-- Claim C2 (amended): the emptiness part of the output test is Python
truthiness of the raw, untrimmed value, so for a record with a non-empty
list of activity objects, dailyScore is 100 × (count of activities whose
raw outputProduced is truthy and whose string form, lower-cased and
trimmed, is not "none") / (activity count), rounded half-to-even to 2
decimals; all-"none" records score exactly 0 and records whose every
activity passes the test score exactly 100. -/
theorem C2_daily_score_formula (kvs : Dict) (xs : List Json)
    (hl : lookupKey kvs "activities" = some (Json.arr xs)) (hne : xs ≠ [])
    (hobj : ∀ a ∈ xs, isObjJ a = true) :
    calculate_daily_score kvs =
      Except.ok (round2 ((xs.countP jsonTangible : ℚ) / (xs.length : ℚ) * 100)) ∧
    ((∀ a ∈ xs, jsonTangible a = false) → calculate_daily_score kvs = Except.ok 0) ∧
    ((∀ a ∈ xs, jsonTangible a = true) → calculate_daily_score kvs = Except.ok 100) := by
  have hlen : xs.length ≠ 0 := fun h => hne (List.length_eq_zero.mp h)
  have h0 : round2 0 = 0 := by with_unfolding_all decide
  have h100 : round2 100 = 100 := by with_unfolding_all decide
  have hmain : calculate_daily_score kvs =
      Except.ok (round2 ((xs.countP jsonTangible : ℚ) / (xs.length : ℚ) * 100)) := by
    unfold calculate_daily_score
    rw [hl]
    simp only [if_neg hlen, countTangible_of_obj xs hobj, Except.map]
  refine ⟨hmain, ?_, ?_⟩
  · intro hall
    rw [hmain, List.countP_eq_zero.mpr (fun a ha => by simp [hall a ha])]
    norm_num [h0]
  · intro hall
    rw [hmain, List.countP_eq_length.mpr hall,
      div_self (Nat.cast_ne_zero.mpr hlen), one_mul, h100]

/-- Witness for the amended C2 at a concrete two-activity record scoring
50.0. -/
theorem C2_daily_score_formula_witness :
    calculate_daily_score exC2w =
      Except.ok (round2 ((exC2wActs.countP jsonTangible : ℚ) / (exC2wActs.length : ℚ) * 100)) :=
  (C2_daily_score_formula exC2w exC2wActs rfl (by simp [exC2wActs]) (by decide)).1

/-- On a record whose `activities` value is present but not a list,
`calculate_daily_score` raises the ValueError of score_calculator.py:48. -/
theorem dailyScore_non_list (d : Dict) (j : Json) (h : lookupKey d "activities" = some j)
    (hj : isListJ j = false) :
    calculate_daily_score d =
      Except.error (ScoreErr.valueError "\x27activities\x27 debe ser una lista") := by
  unfold calculate_daily_score
  rw [h]
  cases j with
  | arr xs => simp [isListJ] at hj
  | null => rfl
  | bool b => rfl
  | num q => rfl
  | str s => rfl
  | obj kvs => rfl

/-- Claim C3: `calculate_daily_score` raises KeyError exactly when the
`activities` key is absent, raises ValueError exactly when the key is
present but its value is not a list, and returns 0.0 (without raising) on
an empty activities list. -/
theorem C3_daily_score_errors (d : Dict) :
    ((∃ msg, calculate_daily_score d = Except.error (ScoreErr.keyError msg)) ↔
      lookupKey d "activities" = none) ∧
    ((∃ msg, calculate_daily_score d = Except.error (ScoreErr.valueError msg)) ↔
      (∃ j, lookupKey d "activities" = some j ∧ isListJ j = false)) ∧
    (lookupKey d "activities" = some (Json.arr []) → calculate_daily_score d = Except.ok 0) := by
  cases h : lookupKey d "activities" with
  | none =>
    have hd : calculate_daily_score d =
        Except.error (ScoreErr.keyError "El diccionario debe contener la clave \x27activities\x27") := by
      unfold calculate_daily_score
      rw [h]
    refine ⟨⟨fun _ => rfl, fun _ => ⟨_, hd⟩⟩, ?_, ?_⟩
    · constructor
      · rintro ⟨msg, hm⟩
        exact absurd (hd.symm.trans hm) (by simp)
      · rintro ⟨j, hj, _⟩
        exact absurd hj (by simp)
    · intro hj
      exact absurd hj (by simp)
  | some j =>
    by_cases hlist : isListJ j = true
    · obtain ⟨xs, rfl⟩ : ∃ xs, j = Json.arr xs := by
        cases j <;> simp [isListJ] at hlist ⊢
      have hres : (∃ q, calculate_daily_score d = Except.ok q) ∨
          calculate_daily_score d = Except.error ScoreErr.attributeError := by
        unfold calculate_daily_score
        rw [h]
        by_cases hx : xs.length = 0
        · exact Or.inl ⟨0, by simp [hx]⟩
        · rcases countTangible_cases xs with ⟨k, hk⟩ | hk
          · exact Or.inl ⟨round2 ((k : ℚ) / (xs.length : ℚ) * 100),
              by simp [hx, hk, Except.map]⟩
          · exact Or.inr (by simp [hx, hk, Except.map])
      refine ⟨?_, ?_, ?_⟩
      · constructor
        · rintro ⟨msg, hm⟩
          rcases hres with ⟨q, hq⟩ | hq <;> rw [hm] at hq <;> exact absurd hq (by simp)
        · intro hn
          exact absurd hn (by simp)
      · constructor
        · rintro ⟨msg, hm⟩
          rcases hres with ⟨q, hq⟩ | hq <;> rw [hm] at hq <;> exact absurd hq (by simp)
        · rintro ⟨j', hj', hl⟩
          obtain rfl : Json.arr xs = j' := by injection hj'
          exact absurd hl (by simp [isListJ])
      · intro hj
        have hxs : xs = [] := by
          injection hj with hj2
          injection hj2
        subst hxs
        unfold calculate_daily_score
        rw [h]
        rfl
    · have hj' : isListJ j = false := by
        cases hb : isListJ j
        · rfl
        · exact absurd hb hlist
      have hd := dailyScore_non_list d j h hj'
      refine ⟨?_, ?_, ?_⟩
      · constructor
        · rintro ⟨msg, hm⟩
          exact absurd (hd.symm.trans hm) (by simp)
        · intro hn
          exact absurd hn (by simp)
      · exact ⟨fun _ => ⟨j, rfl, hj'⟩, fun _ => ⟨_, hd⟩⟩
      · intro hja
        obtain rfl : j = Json.arr [] := by injection hja
        simp [isListJ] at hj'

/-- Witness for C3: the empty-activities record scores 0.0. -/
theorem C3_daily_score_errors_witness :
    calculate_daily_score [("activities", Json.arr [])] = Except.ok 0 :=
  (C3_daily_score_errors [("activities", Json.arr [])]).2.2 rfl

/-- The weekly loop collects exactly the ok daily scores when every log's
daily score is ok or raises a caught exception. -/
theorem collect_eq_filterMap (logs : List Dict)
    (h : ∀ l ∈ logs, caughtOrOk (calculate_daily_score l) = true) :
    collectDailyScores logs =
      Except.ok (logs.filterMap fun l => (calculate_daily_score l).toOption) := by
  induction logs with
  | nil => rfl
  | cons a t ih =>
    have ha := h a (List.mem_cons_self a t)
    have ht : ∀ l ∈ t, caughtOrOk (calculate_daily_score l) = true :=
      fun l hl => h l (List.mem_cons_of_mem a hl)
    unfold collectDailyScores
    cases hs : calculate_daily_score a with
    | ok s =>
      rw [ih ht]
      simp [List.filterMap_cons, hs, Except.map, Except.toOption]
    | error e =>
      have hc : caughtErr e = true := by
        rw [hs] at ha
        exact ha
      simp only [hc, if_true, ih ht, List.filterMap_cons, hs, Except.toOption]

/-- Counterexample to claim C4 as stated: the second log's activities list
contains the number 42; its daily score raises `AttributeError`
(`42 .get(...)`), which the `except (KeyError, ValueError)` clause of the
weekly loop does not catch, so the whole weekly computation propagates the
exception instead of skipping the record and returning the mean 0.0 of the
first log's score. -/
theorem C4_weekly_score_counterexample :
    calculate_daily_score [("activities", Json.arr [Json.num 42])] =
      Except.error ScoreErr.attributeError ∧
    calculate_weekly_score exC4 = Except.error ScoreErr.attributeError ∧
    calculate_weekly_score exC4 ≠ Except.ok 0 := by
  refine ⟨by with_unfolding_all rfl, ?_, ?_⟩
  · with_unfolding_all rfl
  · intro hcontra
    have h : calculate_weekly_score exC4 = Except.error ScoreErr.attributeError := by
      with_unfolding_all rfl
    rw [h] at hcontra
    exact Except.noConfusion hcontra

/-- Claim C4 (amended): weeklyScore fails with EmptyInput (ValueError) on
the empty collection; it skips records whose dailyScore raises a KeyError
or ValueError — any other exception (an activity that is not an object)
propagates and aborts the computation — fails with NoValidData when every
record was skipped, and otherwise returns the mean of the computed daily
scores rounded to 2 decimals. -/
theorem C4_weekly_score_behavior :
    calculate_weekly_score [] =
      Except.error (ScoreErr.valueError "La lista de logs diarios no puede estar vacía") ∧
    ∀ logs : List Dict, logs ≠ [] →
      (∀ l ∈ logs, caughtOrOk (calculate_daily_score l) = true) →
      ((logs.filterMap fun l => (calculate_daily_score l).toOption) = [] →
        calculate_weekly_score logs =
          Except.error (ScoreErr.valueError "No se pudo calcular ningún score diario válido")) ∧
      ((logs.filterMap fun l => (calculate_daily_score l).toOption) ≠ [] →
        calculate_weekly_score logs =
          Except.ok (round2 ((logs.filterMap fun l => (calculate_daily_score l).toOption).sum /
            ((logs.filterMap fun l => (calculate_daily_score l).toOption).length : ℚ)))) := by
  refine ⟨rfl, ?_⟩
  intro logs hne h
  have hcol := collect_eq_filterMap logs h
  obtain ⟨a, t, rfl⟩ : ∃ a t, logs = a :: t := by
    cases logs with
    | nil => exact absurd rfl hne
    | cons a t => exact ⟨a, t, rfl⟩
  constructor
  · intro hfm
    unfold calculate_weekly_score
    rw [hcol, hfm]
    rfl
  · intro hfm
    obtain ⟨s, rest, hsr⟩ : ∃ s rest,
        ((a :: t).filterMap fun l => (calculate_daily_score l).toOption) = s :: rest := by
      cases hx : (a :: t).filterMap fun l => (calculate_daily_score l).toOption with
      | nil => exact absurd hx hfm
      | cons s rest => exact ⟨s, rest, rfl⟩
    unfold calculate_weekly_score
    rw [hcol, hsr]
    rfl

/-- Witness for the amended C4: a one-log collection whose log scores 0.0. -/
theorem C4_weekly_score_behavior_witness :
    calculate_weekly_score exC4w =
      Except.ok (round2 ((exC4w.filterMap fun l => (calculate_daily_score l).toOption).sum /
        ((exC4w.filterMap fun l => (calculate_daily_score l).toOption).length : ℚ))) :=
  (C4_weekly_score_behavior.2 exC4w
      (by simp [exC4w])
      (by with_unfolding_all decide)).2
    (by with_unfolding_all decide)

/-- A record that is valid except that `main_obstacle` holds the empty
string (and no `main_blocker` key is present). -/
def exC5 : Json :=
  Json.obj [("date", Json.str "2026-01-13"),
    ("activities", Json.arr [Json.obj [("name", Json.str "Parser"),
      ("duration_minutes", Json.num 120),
      ("output_produced", Json.str "log_parser.py"),
      ("type", Json.str "production")]]),
    ("self_assessment", Json.obj [("honesty_score", Json.num 9),
      ("main_obstacle", Json.str ""),
      ("commitment_tomorrow", Json.str "Definir reportes")])]

/-- The same record as `exC5` with a non-empty `main_obstacle`. -/
def exC5good : Json :=
  Json.obj [("date", Json.str "2026-01-13"),
    ("activities", Json.arr [Json.obj [("name", Json.str "Parser"),
      ("duration_minutes", Json.num 120),
      ("output_produced", Json.str "log_parser.py"),
      ("type", Json.str "production")]]),
    ("self_assessment", Json.obj [("honesty_score", Json.num 9),
      ("main_obstacle", Json.str "Falta de claridad"),
      ("commitment_tomorrow", Json.str "Definir reportes")])]

/-- Counterexample to claim C5 as stated: alias resolution uses Python
`or` on the looked-up values, so the empty string under `main_obstacle` is
treated as absent and the otherwise-valid record `exC5` is rejected with
the missing-field message instead of validating to (true, null); the same
record with a non-empty obstacle validates. -/
theorem C5_alias_counterexample :
    validate_daily_log_data exC5good = (true, none) ∧
    validate_daily_log_data exC5 =
      (false, some "self_assessment: campo requerido faltante \x27main_obstacle\x27 o \x27main_blocker\x27") ∧
    validate_daily_log_data exC5 ≠ (true, none) :=
  ⟨by with_unfolding_all rfl, by with_unfolding_all rfl, by with_unfolding_all decide⟩

/-- Claim C5 (amended): alias resolution in the self-assessment checks is
truthiness-based, not presence-based: when `main_obstacle` is present with
the empty string (and `main_blocker` absent), validate reports the field
as missing; the same happens for `commitment_tomorrow` present as "" (with
`tomorrow_commitment` absent). -/
theorem C5_alias_truthiness :
    (∀ (d a : Dict) (h : ℚ),
      pyOrJ (pyGet d "self_assessment") (pyGet d "self_assesment") = Json.obj a →
      lookupKey a "honesty_score" = some (Json.num h) → 0 ≤ h → h ≤ 10 →
      lookupKey a "main_obstacle" = some (Json.str "") →
      lookupKey a "main_blocker" = none →
      checkAssessment d =
        some "self_assessment: campo requerido faltante \x27main_obstacle\x27 o \x27main_blocker\x27") ∧
    (∀ (d a : Dict) (h : ℚ) (obst : String),
      pyOrJ (pyGet d "self_assessment") (pyGet d "self_assesment") = Json.obj a →
      lookupKey a "honesty_score" = some (Json.num h) → 0 ≤ h → h ≤ 10 →
      lookupKey a "main_obstacle" = some (Json.str obst) → obst ≠ "" →
      lookupKey a "commitment_tomorrow" = some (Json.str "") →
      lookupKey a "tomorrow_commitment" = none →
      checkAssessment d =
        some "self_assessment: campo requerido faltante \x27commitment_tomorrow\x27 o \x27tomorrow_commitment\x27") := by
  constructor
  · intro d a h hor hhon h0 h10 hmo hmb
    unfold checkAssessment
    rw [hor]
    simp +decide [pyGet, hhon, hmo, hmb, pyOrJ, pyTruthy, isNumberPy, asRat,
      MIN_HONESTY_SCORE, MAX_HONESTY_SCORE, h0, h10]
  · intro d a h obst hor hhon h0 h10 hmo hobst hct htc
    unfold checkAssessment
    rw [hor]
    simp +decide [pyGet, hhon, hmo, hct, htc, pyOrJ, pyTruthy, isNumberPy, asRat, isStrJ,
      MIN_HONESTY_SCORE, MAX_HONESTY_SCORE, h0, h10, hobst]

/-- Witness for the amended C5 at two concrete assessments. -/
theorem C5_alias_truthiness_witness :
    checkAssessment [("self_assessment", Json.obj [("honesty_score", Json.num 9),
        ("main_obstacle", Json.str "")])] =
      some "self_assessment: campo requerido faltante \x27main_obstacle\x27 o \x27main_blocker\x27" ∧
    checkAssessment [("self_assessment", Json.obj [("honesty_score", Json.num 9),
        ("main_obstacle", Json.str "Distracciones"),
        ("commitment_tomorrow", Json.str "")])] =
      some "self_assessment: campo requerido faltante \x27commitment_tomorrow\x27 o \x27tomorrow_commitment\x27" :=
  ⟨C5_alias_truthiness.1 _ _ 9 rfl rfl (by with_unfolding_all decide)
      (by with_unfolding_all decide) rfl rfl,
   C5_alias_truthiness.2 _ _ 9 "Distracciones" rfl rfl (by with_unfolding_all decide)
      (by with_unfolding_all decide) rfl (by decide) rfl rfl⟩

/-- A record whose activity #1 has a present but negative duration and no
`output_produced` key. -/
def exC6 : Json :=
  Json.obj [("date", Json.str "2026-01-13"),
    ("activities", Json.arr [Json.obj [("name", Json.str "Test"),
      ("duration_minutes", Json.num (-5)),
      ("type", Json.str "production")]]),
    ("self_assessment", Json.obj [("honesty_score", Json.num 8),
      ("main_obstacle", Json.str "Distracciones"),
      ("commitment_tomorrow", Json.str "Enfoque total")])]

/-- Counterexample to claim C6 as stated: for an activity with a present
but negative duration that also lacks `output_produced`, validate returns
the missing-`output_produced` message, not the duration message, because
the source runs all four presence checks before any value check. -/
theorem C6_order_counterexample :
    validate_daily_log_data exC6 =
      (false, some "Actividad #1: campo requerido faltante \x27output_produced\x27") ∧
    validate_daily_log_data exC6 ≠
      (false, some "Actividad #1: \x27duration_minutes\x27 debe ser mayor a 0") :=
  ⟨by with_unfolding_all rfl, by with_unfolding_all decide⟩

/-- Claim C6 (amended): the per-activity checks run in the order presence
of description, presence of duration, presence of outputProduced, presence
of type, then duration numeric and > 0, outputProduced text, type text,
type in the closed set, returning on the first failure; consequently an
activity with description and duration keys present but no
`output_produced` gets the missing-output message regardless of the
duration value. -/
theorem C6_presence_before_value (idx : Nat) (a : Dict)
    (hdesc : (hasKey a "name" || hasKey a "description") = true)
    (htime : (hasKey a "duration_minutes" || hasKey a "time_invested_minutes") = true)
    (hout : hasKey a "output_produced" = false) :
    checkActivity idx (Json.obj a) =
      some ("Actividad #" ++ toString idx ++ ": campo requerido faltante \x27output_produced\x27") := by
  unfold checkActivity
  simp [hdesc, htime, hout]

/-- Witness for the amended C6: activity #1 with a negative present
duration and no output field. -/
theorem C6_presence_before_value_witness :
    checkActivity 1 (Json.obj [("name", Json.str "Test"), ("duration_minutes", Json.num (-5))]) =
      some ("Actividad #" ++ toString 1 ++ ": campo requerido faltante \x27output_produced\x27") :=
  C6_presence_before_value 1 _ rfl rfl rfl

/-- A record whose date "9999-99-99" is not a real calendar date but has
10 characters and two dashes. -/
def exC7 : Json :=
  Json.obj [("date", Json.str "9999-99-99"),
    ("activities", Json.arr [Json.obj [("name", Json.str "Parser"),
      ("duration_minutes", Json.num 120),
      ("output_produced", Json.str "log_parser.py"),
      ("type", Json.str "production")]]),
    ("self_assessment", Json.obj [("honesty_score", Json.num 9),
      ("main_obstacle", Json.str "Ninguno"),
      ("commitment_tomorrow", Json.str "Seguir")])]

/-- Claim C7: the date check is purely syntactic: for a string-valued date
it passes exactly when the string has 10 characters and exactly two dashes;
in particular the full validation accepts the otherwise-valid record with
the impossible date "9999-99-99". -/
theorem C7_date_syntactic :
    (∀ (d : Dict) (s : String), pyGet d "date" = Json.str s →
      (checkDateField d = none ↔ (s.length = 10 ∧ s.data.count '-' = 2))) ∧
    validate_daily_log_data exC7 = (true, none) := by
  constructor
  · intro d s hs
    unfold checkDateField
    rw [hs]
    simp only [isStrJ, Bool.not_true, Bool.false_eq_true, if_false, asStr]
    constructor
    · intro h
      by_cases hcond : s.length ≠ 10 ∨ s.data.count '-' ≠ 2
      · rw [if_pos hcond] at h
        exact absurd h (by simp)
      · push_neg at hcond
        exact hcond
    · rintro ⟨h1, h2⟩
      rw [if_neg (by push_neg; exact ⟨h1, h2⟩)]
  · with_unfolding_all rfl

/-- Witness for C7: the non-calendar string "9999-99-99" passes the date
check. -/
theorem C7_date_syntactic_witness :
    checkDateField [("date", Json.str "9999-99-99")] = none :=
  (C7_date_syntactic.1 [("date", Json.str "9999-99-99")] "9999-99-99" rfl).mpr (by decide)

/-- A one-activity log carrying both duration aliases with different
positive values: `duration_minutes` 30 and `time_invested_minutes` 60. -/
def exC8log : Dict :=
  [("activities", Json.arr [Json.obj [("name", Json.str "Coding"),
    ("duration_minutes", Json.num 30),
    ("time_invested_minutes", Json.num 60),
    ("output_produced", Json.str "module.py"),
    ("type", Json.str "production")]])]

/-- Counterexample to claim C8 as stated: with both aliases present
(duration_minutes 30, time_invested_minutes 60), the weekly metrics add 60
— the `time_invested_minutes` value — to total and production time, not
the claimed `duration_minutes` value 30. -/
theorem C8_duration_alias_counterexample :
    calculate_weekly_metrics [exC8log] =
      Except.ok ⟨1, 1, 60, 1, 60, 0, 100, 0, 100, [100]⟩ ∧
    (60 : ℚ) ≠ 30 :=
  ⟨by with_unfolding_all rfl, by with_unfolding_all decide⟩

/-- Claim C8 (amended): the duration alias resolution of weeklyMetrics
prefers `time_invested_minutes`: when that key holds a non-zero number its
value is the one used; `duration_minutes` (default 0) is only consulted
when `time_invested_minutes` is absent or falsy; an activity with neither
key contributes 0 minutes.  For an activity typed "production" carrying
both aliases, the `time_invested_minutes` value is the one added to the
total and production buckets. -/
theorem C8_duration_alias :
    (∀ (a : Dict) (t : ℚ), lookupKey a "time_invested_minutes" = some (Json.num t) → t ≠ 0 →
      timeInvested a = Json.num t) ∧
    (∀ (a : Dict) (dm : Json), lookupKey a "time_invested_minutes" = none →
      lookupKey a "duration_minutes" = some dm → timeInvested a = dm) ∧
    (∀ a : Dict, lookupKey a "time_invested_minutes" = none →
      lookupKey a "duration_minutes" = none → timeInvested a = Json.num 0) ∧
    (∀ (acc : MetricsAcc) (a : Dict) (d t : ℚ), t ≠ 0 →
      lookupKey a "time_invested_minutes" = some (Json.num t) →
      lookupKey a "duration_minutes" = some (Json.num d) →
      lookupKey a "type" = some (Json.str "production") →
      ∃ res, metricsActivity acc (Json.obj a) = Except.ok res ∧
        res.total_time_minutes = acc.total_time_minutes + t ∧
        res.production_time = acc.production_time + t ∧
        res.consumption_time = acc.consumption_time) := by
  have tinv : ∀ (a : Dict) (t : ℚ), lookupKey a "time_invested_minutes" = some (Json.num t) →
      t ≠ 0 → timeInvested a = Json.num t := by
    intro a t h ht
    unfold timeInvested pyGet pyOrJ
    rw [h]
    simp [pyTruthy, bne_iff_ne, ht]
  refine ⟨tinv, ?_, ?_, ?_⟩
  · intro a dm h1 h2
    unfold timeInvested pyGet pyGetD pyOrJ
    rw [h1, h2]
    simp [pyTruthy]
  · intro a h1 h2
    unfold timeInvested pyGet pyGetD pyOrJ
    rw [h1, h2]
    simp [pyTruthy]
  · intro acc a d t ht h1 h2 h3
    have htv := tinv a t h1 ht
    have hlow : pyLower "production" = "production" := by decide
    simp only [metricsActivity]
    rw [htv]
    simp only [pyGetD, h3, Option.getD_some, pyAdd, pyLowerJ, hlow, Except.bind, bind, pure,
      if_pos rfl]
    exact ⟨_, rfl, rfl, rfl, rfl⟩

/-- Witness for the amended C8 at concrete activities. -/
theorem C8_duration_alias_witness :
    timeInvested [("duration_minutes", Json.num 30), ("time_invested_minutes", Json.num 60)] =
      Json.num 60 ∧
    timeInvested [("duration_minutes", Json.num 30)] = Json.num 30 ∧
    timeInvested [("name", Json.str "Meeting")] = Json.num 0 ∧
    ∃ res, metricsActivity ⟨0, 0, 0, 0, 0, []⟩
        (Json.obj [("duration_minutes", Json.num 30), ("time_invested_minutes", Json.num 60),
          ("type", Json.str "production")]) = Except.ok res ∧
      res.total_time_minutes = 0 + 60 ∧ res.production_time = 0 + 60 ∧
      res.consumption_time = 0 :=
  ⟨C8_duration_alias.1 _ 60 rfl (by with_unfolding_all decide),
   C8_duration_alias.2.1 _ _ rfl rfl,
   C8_duration_alias.2.2.1 _ rfl rfl,
   C8_duration_alias.2.2.2 ⟨0, 0, 0, 0, 0, []⟩ _ 30 60 (by with_unfolding_all decide)
     rfl rfl rfl⟩

/-- A per-activity validation pass implies every activity is an object. -/
theorem checkActivities_all_obj (i : Nat) (xs : List Json)
    (h : checkActivities i xs = none) : ∀ a ∈ xs, isObjJ a = true := by
  induction xs generalizing i with
  | nil => intro a ha; cases ha
  | cons b rest ih =>
    intro a ha
    unfold checkActivities at h
    cases hb : checkActivity i b with
    | some e =>
      rw [hb] at h
      exact absurd h (by simp)
    | none =>
      rw [hb] at h
      rcases List.mem_cons.mp ha with rfl | hmem
      · cases a with
        | obj m => rfl
        | null => simp [checkActivity] at hb
        | bool x => simp [checkActivity] at hb
        | num x => simp [checkActivity] at hb
        | str x => simp [checkActivity] at hb
        | arr x => simp [checkActivity] at hb
      · exact ih (i + 1) h a hmem

/-- Claim C9: any parsed record accepted by the validator is accepted by
`calculate_daily_score` without raising: the validator guarantees the
`activities` key is present, is a list, and every element is an object, so
none of the scoring error branches is reachable. -/
theorem C9_validate_then_score (kvs : Dict)
    (h : validate_daily_log_data (Json.obj kvs) = (true, none)) :
    ∃ q, calculate_daily_score kvs = Except.ok q := by
  simp only [validate_daily_log_data] at h
  cases hroot : checkRoot kvs with
  | some e => simp [hroot] at h
  | none =>
    simp only [hroot] at h
    cases hdate : checkDateField kvs with
    | some e => simp [hdate] at h
    | none =>
      simp only [hdate] at h
      cases hact : pyGet kvs "activities" with
      | arr xs =>
        simp only [hact] at h
        by_cases hemp : xs.isEmpty
        · simp [hemp] at h
        · simp only [Bool.not_eq_true] at hemp
          simp only [hemp, Bool.false_eq_true, if_false] at h
          cases hc : checkActivities 1 xs with
          | some e => simp [hc] at h
          | none =>
            have hobj := checkActivities_all_obj 1 xs hc
            have hlk : lookupKey kvs "activities" = some (Json.arr xs) := by
              unfold pyGet at hact
              cases hl : lookupKey kvs "activities" with
              | none =>
                rw [hl] at hact
                exact absurd hact (by simp)
              | some j =>
                rw [hl] at hact
                simp only [Option.getD_some] at hact
                rw [hact]
            unfold calculate_daily_score
            rw [hlk]
            by_cases hx : xs.length = 0
            · exact ⟨0, by simp [hx]⟩
            · exact ⟨round2 ((xs.countP jsonTangible : ℚ) / (xs.length : ℚ) * 100),
                by simp [hx, countTangible_of_obj xs hobj, Except.map]⟩
      | null => simp [hact] at h
      | bool x => simp [hact] at h
      | num x => simp [hact] at h
      | str x => simp [hact] at h
      | obj x => simp [hact] at h

/-- A fully valid record for the C9 witness. -/
def exC9 : Dict :=
  [("date", Json.str "2026-01-13"),
   ("activities", Json.arr [Json.obj [("name", Json.str "Parser"),
     ("duration_minutes", Json.num 120),
     ("output_produced", Json.str "log_parser.py"),
     ("type", Json.str "production")]]),
   ("self_assessment", Json.obj [("honesty_score", Json.num 9),
     ("main_obstacle", Json.str "Ninguno"),
     ("commitment_tomorrow", Json.str "Seguir")])]

/-- Witness for C9: a concrete validated record is scored without error. -/
theorem C9_validate_then_score_witness :
    ∃ q, calculate_daily_score exC9 = Except.ok q :=
  C9_validate_then_score exC9 (by with_unfolding_all rfl)

/-- Activity list for the C10 witness: a single object with no
`output_produced` key. -/
def exC10acts : List Json := [Json.obj [("name", Json.str "Meeting")]]

/-- A record whose only activity lacks `output_produced`. -/
def exC10 : Dict := [("activities", Json.arr exC10acts)]

/-- Claim C10 (implicit): `calculate_daily_score` does not require
`output_produced`: on any record whose activities value is a list of
objects it returns a score without raising, an activity lacking the key
counts as having no tangible output (the `.get` default "none"), and an
activity carrying the falsy empty string likewise counts as no output. -/
theorem C10_output_optional :
    (∀ (kvs : Dict) (xs : List Json), lookupKey kvs "activities" = some (Json.arr xs) →
      (∀ a ∈ xs, isObjJ a = true) → ∃ q, calculate_daily_score kvs = Except.ok q) ∧
    (∀ m : Dict, lookupKey m "output_produced" = none → hasTangibleOutput m = false) ∧
    (∀ m : Dict, lookupKey m "output_produced" = some (Json.str "") →
      hasTangibleOutput m = false) := by
  refine ⟨?_, ?_, ?_⟩
  · intro kvs xs hl hobj
    unfold calculate_daily_score
    rw [hl]
    by_cases hx : xs.length = 0
    · exact ⟨0, by simp [hx]⟩
    · exact ⟨round2 ((xs.countP jsonTangible : ℚ) / (xs.length : ℚ) * 100),
        by simp [hx, countTangible_of_obj xs hobj, Except.map]⟩
  · intro m hm
    unfold hasTangibleOutput pyGetD
    rw [hm]
    decide
  · intro m hm
    unfold hasTangibleOutput pyGetD
    rw [hm]
    decide

/-- Witness for C10: the record whose only activity lacks the output key
is scored without error, and that activity counts as no tangible output. -/
theorem C10_output_optional_witness :
    (∃ q, calculate_daily_score exC10 = Except.ok q) ∧
    hasTangibleOutput [("name", Json.str "Meeting")] = false ∧
    hasTangibleOutput [("output_produced", Json.str "")] = false :=
  ⟨C10_output_optional.1 exC10 exC10acts rfl (by decide),
   C10_output_optional.2.1 _ rfl,
   C10_output_optional.2.2 _ rfl⟩
